import Mathlib

/-!
Verification of the sign-s3-url service against its specification.

The repository contains two revisions of the same Go lambda:
`src/main.go` (older) and `src/unnamed/part_000` (newer).  Both are
embedded shallowly below: external collaborators (DynamoDB identity
store, S3 object listing, URL presigning, JSON marshalling of the
response, AWS session construction) are passed in as explicit
environment functions; Go `int`/`int64` arithmetic is modelled on `Int`
with explicit wrapping where the code adds machine integers; Go
`(T, error)` returns become `T × Option String` (`none` = nil error).
-/

/-- Signed 64-bit wrap-around, modelling Go `int64` overflow. -/
def i64wrap (x : Int) : Int := (x + 2 ^ 63) % 2 ^ 64 - 2 ^ 63

/-- Go `int64` addition (`a + b` on machine integers). -/
def i64add (a b : Int) : Int := i64wrap (a + b)

/-- The `User` struct shared by both revisions: the JSON request body
and the DynamoDB record are both unmarshalled into this shape.
`fileSize` is Go `int`, `serviceTier` is Go `int`. -/
structure User where
  email : String
  sub : String
  companyID : String
  userName : String
  fileRequest : String
  fileSize : Int
  payed : Bool
  serviceTier : Int
  deriving Repr, DecidableEq

/-- Outcome of the DynamoDB `GetItem` + `UnmarshalMap` sequence in
`validateUser`: a backend error, an empty item (user not found), an
unmarshalling error, or the stored record. -/
inductive LookupResult where
  | backendErr (msg : String)
  | notFound
  | badItem (msg : String)
  | found (rec : User)
  deriving Repr, DecidableEq

/-- Result of S3 `ListObjectsPages` as observed by the caller: the
pages (each a list of object sizes) delivered to the callback, and the
error value the call returned (which `calculateObjectSize` discards). -/
structure ListResult where
  pages : List (List Int)
  err : Option String
  deriving Repr, DecidableEq

/-- Result of a single S3 `ListObjects` call (old revision): the
`Contents` object sizes and the error value (discarded with `_`). -/
structure SingleList where
  contents : List Int
  err : Option String
  deriving Repr, DecidableEq

/-- `events.APIGatewayProxyResponse`: Go zero values are `""`, `0`
and an empty header map, which matters because one return site omits
`StatusCode`. -/
structure APIGatewayProxyResponse where
  body : String
  statusCode : Int
  headers : List (String × String)
  deriving Repr, DecidableEq

namespace PartRev

/-- Environment of external collaborators for the newer revision
(`src/unnamed/part_000`). `sessionErr` is the error from
`session.NewSession` (`none` = success); `store` keys DynamoDB lookup
by the `sub` string; `s3` keys `ListObjectsPages` by the listing
`Prefix` string; `presign` maps an object key to the `Presign` result;
`marshal` maps the signed url to the `json.Marshal` result. -/
structure Env where
  sessionErr : Option String
  store : String → LookupResult
  s3 : String → ListResult
  presign : String → String × Option String
  marshal : String → String × Option String

/-- `calculateObjectSize` of `part_000`: drives `ListObjectsPages`
with a callback that sums `*value.Size` into `totalSize` and always
returns `true` (continue). The error returned by `ListObjectsPages`
is discarded by the Go code, hence `.err` is never inspected. -/
def listObjectsPages (pages : List (List Int)) (acc : Int)
    (f : List Int → Int → Int × Bool) : Int :=
  match pages with
  | [] => acc
  | p :: rest =>
    let r := f p acc
    if r.2 then listObjectsPages rest r.1 f else r.1

/-- One page of the summing callback: `for _, value := range
page.Contents { totalSize += size }`. -/
def pageSum (page : List Int) (acc : Int) : Int :=
  page.foldl i64add acc

/-- `calculateObjectSize`: total bytes under the listing key
`user.CompanyID + "/"`, summed across all pages; the call's error
return is ignored. -/
def calculateObjectSize (s3 : String → ListResult) (user : User) : Int :=
  let lst := s3 (user.companyID ++ "/")
  listObjectsPages lst.pages 0 (fun page acc => (pageSum page acc, true))

/-- `verifyUserGrants` of `part_000`: ceiling table by tier, then a
usage check only for tiers 0 and 2; every other tier falls through to
`return false, nil`. -/
def verifyUserGrants (s3 : String → ListResult) (user : User) :
    Bool × Option String :=
  let totalSize := calculateObjectSize s3 user
  let maxSize : Int :=
    if user.serviceTier = 0 then 10000000
    else if user.serviceTier = 1 then 40000000000
    else if user.serviceTier = 2 then 1000000000000
    else 10000000
  if user.serviceTier = 0 then
    if totalSize ≥ maxSize ∨ i64add totalSize user.fileSize > maxSize then
      (false, some "Maximum amount of stored data exceeded")
    else (true, none)
  else if user.serviceTier = 2 then
    if totalSize ≥ maxSize ∨ i64add totalSize user.fileSize > maxSize then
      (false, some "Maximum amount of stored data exceeded")
    else (true, none)
  else (false, none)

/-- `validateUser` of `part_000`: fetch the record by `sub`, copy
`CompanyID`, `ServiceTier`, `Payed` from it unconditionally (the sub
comparison is commented out in this revision), then call
`verifyUserGrants` and require `grants && user.Payed`. Returns the Go
`(bool, error)` pair together with the mutated receiver. -/
def validateUser (store : String → LookupResult)
    (s3 : String → ListResult) (user : User) :
    (Bool × Option String) × User :=
  match store user.sub with
  | .backendErr m => ((false, some m), user)
  | .notFound => ((false, some "User not found"), user)
  | .badItem m => ((false, some m), user)
  | .found d =>
    let user' := { user with
      companyID := d.companyID
      serviceTier := d.serviceTier
      payed := d.payed }
    let gr := verifyUserGrants s3 user'
    match gr.2 with
    | some m => ((false, some m), user')
    | none =>
      if gr.1 && user'.payed then ((true, none), user')
      else ((false, none), user')

/-- `signURLForUser`: presign a PUT for key
`CompanyID + "/" + FileRequest`; on error return `("", err)`. -/
def signURLForUser (presign : String → String × Option String)
    (user : User) : String × Option String :=
  let r := presign (user.companyID ++ "/" ++ user.fileRequest)
  match r.2 with
  | some m => ("", some m)
  | none => (r.1, none)

/-- CORS headers attached to the 200 response in `part_000`. -/
def corsHeaders : List (String × String) :=
  [("Access-Control-Allow-Origin", "*"),
   ("Access-Control-Allow-Methods", "*")]

/-- `HandleRequest` of `part_000`. The input is the result of
`json.Unmarshal` on the event body (`Except` error = parse failure).
Returns the Go pair (response, handler error). Note the session-error
return site sets no `StatusCode` (zero value 0). -/
def HandleRequest (env : Env) (body : Except String User) :
    APIGatewayProxyResponse × Option String :=
  match env.sessionErr with
  | some m => (⟨m, 0, []⟩, none)
  | none =>
    match body with
    | .error m => (⟨m, 400, []⟩, none)
    | .ok user =>
      let vr := validateUser env.store env.s3 user
      if !vr.1.1 || vr.1.2.isSome then
        match vr.1.2 with
        | some m => (⟨m, 400, []⟩, none)
        | none => (⟨"Invalid User Request", 400, []⟩, none)
      else
        let sr := signURLForUser env.presign vr.2
        if sr.1 == "" || sr.2.isSome then
          match sr.2 with
          | some m => (⟨m, 400, []⟩, none)
          | none => (⟨"Unable to sign URL", 400, []⟩, none)
        else
          let mr := env.marshal sr.1
          match mr.2 with
          | some m => (⟨m, 400, []⟩, none)
          | none => (⟨mr.1, 200, corsHeaders⟩, none)

end PartRev

namespace MainRev

/-- Environment of external collaborators for the older revision
(`src/main.go`); its `verifyUserGrants` uses a single `ListObjects`
call, hence `s3` returns one page. -/
structure Env where
  sessionErr : Option String
  store : String → LookupResult
  s3 : String → SingleList
  presign : String → String × Option String
  marshal : String → String × Option String

/-- `verifyUserGrants` of `src/main.go`: tier 0 is gated by per-file
size and object count, tier 1 by a total-usage ceiling of 42949672960,
tier 2's branch is empty and falls through to `return false, nil`.
The `ListObjects` error is discarded (`objects, _ :=`). -/
def verifyUserGrants (s3 : String → SingleList) (user : User) :
    Bool × Option String :=
  let objects := s3 (user.companyID ++ "/")
  let totalSize := objects.contents.foldl i64add 0
  if user.serviceTier = 0 then
    if user.fileSize > 10000000 then
      (false, some "File size exceeded tier limit")
    else if objects.contents.length > 5 then
      (false, some "Number of files in tier exceeded")
    else (true, none)
  else if user.serviceTier = 1 then
    if totalSize ≥ 42949672960 ∨ i64add totalSize user.fileSize > 42949672960 then
      (false, some "Maximum amount of stored data exceeded")
    else (true, none)
  else if user.serviceTier = 2 then
    (false, none)
  else (false, none)

/-- `validateUser` of `src/main.go`: fetch the record by `sub`,
compare the stored sub with the request's, and on match copy
`CompanyID`, `ServiceTier`, `Payed`. No grants check here (in this
revision `verifyUserGrants` is never called). -/
def validateUser (store : String → LookupResult) (user : User) :
    (Bool × Option String) × User :=
  match store user.sub with
  | .backendErr m => ((false, some m), user)
  | .notFound => ((false, some "User not found"), user)
  | .badItem m => ((false, some m), user)
  | .found d =>
    if d.sub == user.sub then
      ((true, none),
       { user with
         companyID := d.companyID
         serviceTier := d.serviceTier
         payed := d.payed })
    else ((false, some "User invalid"), user)

/-- `signURLForUser` of `src/main.go` (same shape as the newer one;
only the presign duration differs, which is not observable here). -/
def signURLForUser (presign : String → String × Option String)
    (user : User) : String × Option String :=
  let r := presign (user.companyID ++ "/" ++ user.fileRequest)
  match r.2 with
  | some m => ("", some m)
  | none => (r.1, none)

/-- `HandleRequest` of `src/main.go`: like the newer one but with no
CORS headers on success. The session-error return site also sets no
`StatusCode`. -/
def HandleRequest (env : Env) (body : Except String User) :
    APIGatewayProxyResponse × Option String :=
  match env.sessionErr with
  | some m => (⟨m, 0, []⟩, none)
  | none =>
    match body with
    | .error m => (⟨m, 400, []⟩, none)
    | .ok user =>
      let vr := validateUser env.store user
      if !vr.1.1 || vr.1.2.isSome then
        match vr.1.2 with
        | some m => (⟨m, 400, []⟩, none)
        | none => (⟨"Invalid User Request", 400, []⟩, none)
      else
        let sr := signURLForUser env.presign vr.2
        if sr.1 == "" || sr.2.isSome then
          match sr.2 with
          | some m => (⟨m, 400, []⟩, none)
          | none => (⟨"Unable to sign URL", 400, []⟩, none)
        else
          let mr := env.marshal sr.1
          match mr.2 with
          | some m => (⟨m, 400, []⟩, none)
          | none => (⟨mr.1, 200, []⟩, none)

end MainRev

/-! ### Arithmetic facts about the `int64` model -/

theorem i64wrap_eq_self (x : Int) (h1 : -(2 ^ 63) ≤ x) (h2 : x < 2 ^ 63) :
    i64wrap x = x := by
  unfold i64wrap
  have hsplit : (2 : Int) ^ 64 = 2 ^ 63 + 2 ^ 63 := by norm_num
  rw [Int.emod_eq_of_lt (by linarith) (by linarith)]
  ring

theorem i64add_eq_add (a b : Int) (h1 : -(2 ^ 63) ≤ a + b)
    (h2 : a + b < 2 ^ 63) : i64add a b = a + b :=
  i64wrap_eq_self (a + b) h1 h2

/-- Folding `i64add` over a list of nonnegative sizes whose true total
stays below `2 ^ 63` never wraps: it computes the exact sum. -/
theorem foldl_i64add_exact (l : List Int) (acc : Int)
    (hnn : ∀ x ∈ l, 0 ≤ x) (hacc : 0 ≤ acc)
    (hbound : acc + l.sum < 2 ^ 63) :
    l.foldl i64add acc = acc + l.sum := by
  induction l generalizing acc with
  | nil => simp
  | cons x xs ih =>
    have hx : 0 ≤ x := hnn x (List.mem_cons_self x xs)
    have hxs : ∀ y ∈ xs, 0 ≤ y := fun y hy => hnn y (List.mem_cons_of_mem x hy)
    have hsumxs : 0 ≤ xs.sum := List.sum_nonneg hxs
    have hsum : (x :: xs).sum = x + xs.sum := List.sum_cons
    have hpos : (0 : Int) < 2 ^ 63 := by norm_num
    have hstep : i64add acc x = acc + x := by
      apply i64add_eq_add
      · linarith
      · rw [hsum] at hbound; linarith
    rw [List.foldl_cons, hstep, ih (acc + x) hxs (by linarith)
      (by rw [hsum] at hbound; linarith), hsum]
    ring

/-- The pagination driver with the always-continue summing callback
consumes every page: it folds `i64add` over the concatenation of all
pages. -/
theorem listObjectsPages_drains (pages : List (List Int)) (acc : Int) :
    PartRev.listObjectsPages pages acc
      (fun page a => (PartRev.pageSum page a, true)) =
    pages.flatten.foldl i64add acc := by
  induction pages generalizing acc with
  | nil => simp [PartRev.listObjectsPages]
  | cons p rest ih =>
    simp only [PartRev.listObjectsPages, PartRev.pageSum, if_pos,
      List.flatten_cons, List.foldl_append]
    exact ih (p.foldl i64add acc)

/-- `calculateObjectSize` equals the `i64` fold over all object sizes
of all pages under the resolved listing key. -/
theorem calculateObjectSize_flatten (s3 : String → ListResult) (u : User) :
    PartRev.calculateObjectSize s3 u =
      ((s3 (u.companyID ++ "/")).pages.flatten).foldl i64add 0 := by
  unfold PartRev.calculateObjectSize
  exact listObjectsPages_drains _ 0

/-! ### Concrete fixtures used by witnesses and counterexamples -/

/-- A request body as parsed from JSON: the client cannot set trusted
fields, so `companyID`, `payed`, `serviceTier` defaults are irrelevant
until overwritten from the store. -/
def baseUser : User :=
  { email := "dev@example.com"
    sub := "sub-123"
    companyID := ""
    userName := "dev"
    fileRequest := "part.gcode"
    fileSize := 0
    payed := false
    serviceTier := 0 }

/-- A stored account record: paid, Free tier, namespace `acme`. -/
def freePaidRec : User :=
  { baseUser with companyID := "acme", payed := true, serviceTier := 0 }

/-- A stored account record: paid, Enterprise tier, namespace `acme`. -/
def entPaidRec : User :=
  { baseUser with companyID := "acme", payed := true, serviceTier := 2 }

/-- A stored account record: unpaid, Enterprise tier. -/
def entUnpaidRec : User :=
  { baseUser with companyID := "acme", payed := false, serviceTier := 2 }

/-- An S3 backend with no objects under any key and no error. -/
def emptyS3 : String → ListResult := fun _ => ⟨[], none⟩

/-- A presign backend that always succeeds with a fixed URL. -/
def okPresign : String → String × Option String :=
  fun _ => ("https://signed.example/upload", none)

/-- A marshal step that succeeds, returning the url as the body. -/
def okMarshal : String → String × Option String := fun s => (s, none)

/-! ### Claim theorems -/

/-- C1: the spec's uniform quota rule — deny iff
`usage ≥ ceiling ∨ usage + size > ceiling` with ceilings
Free=10000000, Standard=40000000000, Enterprise=1000000000000, applied
identically to every tier — is NOT what either revision implements.
At serviceTier = 1, usage = 0 (no stored objects), requested size = 1,
the rule allows (0 < 40000000000 and 0 + 1 ≤ 40000000000), yet the
`part_000` revision returns `(false, none)` (its tier-1 branch is
missing and falls through to deny); likewise `main.go` denies tier 2
at usage 0, size 1 although 0 + 1 ≤ 1000000000000 (its tier-2 branch
is empty). The code computes the tier-1 / default ceilings into
`maxSize` and never uses them — a slip relative to the documented
ceiling table. -/
theorem c1_quota_rule_divergence :
    (PartRev.verifyUserGrants emptyS3
        { baseUser with serviceTier := 1, fileSize := 1, payed := true } =
      (false, none) ∧
     ¬ ((0 : Int) ≥ 40000000000 ∨ (0 : Int) + 1 > 40000000000)) ∧
    (MainRev.verifyUserGrants (fun _ => ⟨[], none⟩)
        { baseUser with serviceTier := 2, fileSize := 1, payed := true } =
      (false, none) ∧
     ¬ ((0 : Int) ≥ 1000000000000 ∨ (0 : Int) + 1 > 1000000000000)) := by
  refine ⟨⟨?_, by norm_num⟩, ⟨?_, by norm_num⟩⟩ <;> rfl

/-- C9: the two revisions' grant-verification functions are not
equivalent. At serviceTier = 1, usage 0, size 1, `main.go` allows
(total-usage ceiling check passes) while `part_000` denies (tier 1
unchecked, falls through to deny). At serviceTier = 0 with six stored
objects of one byte each and size 1, `main.go` denies (object count
above 5) while `part_000` allows (total usage 6 far below the Free
ceiling). -/
theorem c9_revisions_inequivalent :
    ((MainRev.verifyUserGrants (fun _ => ⟨[], none⟩)
        { baseUser with serviceTier := 1, fileSize := 1 }).1 = true ∧
     (PartRev.verifyUserGrants emptyS3
        { baseUser with serviceTier := 1, fileSize := 1 }).1 = false) ∧
    ((MainRev.verifyUserGrants (fun _ => ⟨[1, 1, 1, 1, 1, 1], none⟩)
        { baseUser with serviceTier := 0, fileSize := 1 }).1 = false ∧
     (PartRev.verifyUserGrants (fun _ => ⟨[[1, 1, 1], [1, 1, 1]], none⟩)
        { baseUser with serviceTier := 0, fileSize := 1 }).1 = true) := by
  refine ⟨⟨?_, ?_⟩, ⟨?_, ?_⟩⟩ <;> rfl

/-- C2: whenever the resolved account record has `payed = false`,
authorization denies — `validateUser` returns `false` whatever the
service tier, stored usage or requested size — and the handler answers
with status 400. The entitlement gate `grants && user.Payed` cannot
pass with `Payed = false`, independently of the quota outcome. -/
theorem c2_unpaid_always_denied (env : PartRev.Env) (user d : User)
    (hfound : env.store user.sub = .found d) (hunpaid : d.payed = false)
    (hsess : env.sessionErr = none) :
    (PartRev.validateUser env.store env.s3 user).1.1 = false ∧
    (PartRev.HandleRequest env (.ok user)).1.statusCode = 400 := by
  have hv : (PartRev.validateUser env.store env.s3 user).1.1 = false := by
    unfold PartRev.validateUser
    rw [hfound]
    dsimp only []
    split
    · rfl
    · simp [hunpaid]
  refine ⟨hv, ?_⟩
  unfold PartRev.HandleRequest
  rw [hsess]
  dsimp only []
  cases hgr2 : (PartRev.validateUser env.store env.s3 user).1.2 with
  | some m => simp [hv, hgr2]
  | none => simp [hv, hgr2]

/-- C3: the response never depends on the client-supplied
`company_id`: two parsed requests that differ only in that field get
identical responses, because `validateUser` overwrites `CompanyID`
with the stored record's value before any storage prefix or object key
is formed. -/
theorem c3_client_companyID_ignored (env : PartRev.Env) (user : User)
    (ca cb : String) :
    PartRev.HandleRequest env (.ok { user with companyID := ca }) =
    PartRev.HandleRequest env (.ok { user with companyID := cb }) := by
  unfold PartRev.HandleRequest PartRev.validateUser
  cases env.sessionErr with
  | some m => rfl
  | none =>
    cases h : env.store user.sub <;> simp [h]

/-- C4: if the identity store holds no record for the request's `sub`,
the handler answers 400 with body "User not found" (no signed URL in
the response); conversely `validateUser` only ever returns `true` when
the store lookup on the request's `sub` produced a record. -/
theorem c4_identity_required (env : PartRev.Env) (user : User) :
    (env.store user.sub = .notFound → env.sessionErr = none →
      (PartRev.HandleRequest env (.ok user)).1 =
        ⟨"User not found", 400, []⟩) ∧
    ((PartRev.validateUser env.store env.s3 user).1.1 = true →
      ∃ d, env.store user.sub = .found d) := by
  constructor
  · intro hnf hsess
    unfold PartRev.HandleRequest
    rw [hsess]
    have hv : PartRev.validateUser env.store env.s3 user =
        ((false, some "User not found"), user) := by
      unfold PartRev.validateUser
      rw [hnf]
    simp [hv]
  · intro htrue
    unfold PartRev.validateUser at htrue
    cases h : env.store user.sub with
    | backendErr m => rw [h] at htrue; simp at htrue
    | notFound => rw [h] at htrue; simp at htrue
    | badItem m => rw [h] at htrue; simp at htrue
    | found d => exact ⟨d, rfl⟩

/-- The identity store of the scenario-5 fixture: every sub resolves
to an unpaid Enterprise record. -/
def c2env : PartRev.Env :=
  { sessionErr := none
    store := fun _ => .found entUnpaidRec
    s3 := emptyS3
    presign := okPresign
    marshal := okMarshal }

/-- Witness for C2, spec scenario 5: subject exists, isPaid = false,
tier = 2, usage = 0, size = 1 — denied with status 400. -/
theorem c2_unpaid_always_denied_witness :
    (PartRev.validateUser c2env.store c2env.s3
        { baseUser with fileSize := 1 }).1.1 = false ∧
    (PartRev.HandleRequest c2env
        (.ok { baseUser with fileSize := 1 })).1.statusCode = 400 :=
  c2_unpaid_always_denied c2env { baseUser with fileSize := 1 } entUnpaidRec
    rfl rfl rfl

/-- An identity store with no record for any sub. -/
def c4envA : PartRev.Env :=
  { sessionErr := none
    store := fun _ => .notFound
    s3 := emptyS3
    presign := okPresign
    marshal := okMarshal }

/-- An identity store resolving every sub to a paid Free record. -/
def c4envB : PartRev.Env :=
  { sessionErr := none
    store := fun _ => .found freePaidRec
    s3 := emptyS3
    presign := okPresign
    marshal := okMarshal }

/-- Witness for C4: an unknown subject gets the 400 not-found
response, and a validated request implies a record was found. -/
theorem c4_identity_required_witness :
    (PartRev.HandleRequest c4envA (.ok baseUser)).1 =
      ⟨"User not found", 400, []⟩ ∧
    ∃ d, c4envB.store baseUser.sub = .found d :=
  ⟨(c4_identity_required c4envA baseUser).1 rfl rfl,
   (c4_identity_required c4envB baseUser).2 rfl⟩

/-- C5: the usage accountant returns 0 for a namespace with no
objects (not an error value — the function cannot even signal one),
and, provided the true total does not overflow `int64`, it returns
the exact sum of all object sizes across all pages of the enumeration
(the pagination callback always continues to the next page). -/
theorem c5_usage_sum_all_pages (s3 : String → ListResult) (u : User) :
    ((s3 (u.companyID ++ "/")).pages = [] →
      PartRev.calculateObjectSize s3 u = 0) ∧
    ((∀ x ∈ (s3 (u.companyID ++ "/")).pages.flatten, 0 ≤ x) →
      ((s3 (u.companyID ++ "/")).pages.flatten).sum < 2 ^ 63 →
      PartRev.calculateObjectSize s3 u =
        ((s3 (u.companyID ++ "/")).pages.flatten).sum) := by
  constructor
  · intro hempty
    rw [calculateObjectSize_flatten, hempty]
    rfl
  · intro hnn hbound
    rw [calculateObjectSize_flatten,
      foldl_i64add_exact _ 0 hnn le_rfl (by simpa using hbound)]
    simp

/-- An S3 backend answering every listing with two pages of three
1,000,000-byte objects each. -/
def twoPageS3 : String → ListResult :=
  fun _ => ⟨[[1000000, 1000000, 1000000], [1000000, 1000000, 1000000]], none⟩

/-- Witness for C5, matching the spec's example: zero objects give 0;
two pages of three 1,000,000-byte objects give 6,000,000. -/
theorem c5_usage_sum_witness :
    PartRev.calculateObjectSize emptyS3 baseUser = 0 ∧
    PartRev.calculateObjectSize twoPageS3 baseUser = 6000000 :=
  ⟨(c5_usage_sum_all_pages emptyS3 baseUser).1 rfl,
   ((c5_usage_sum_all_pages twoPageS3 baseUser).2 (by decide)
     (by decide)).trans (by rfl)⟩

/-- An environment whose usage enumeration fails with a transient
backend error, while everything else (identity, signing, marshalling)
succeeds for a paid Enterprise account. -/
def c6env : PartRev.Env :=
  { sessionErr := none
    store := fun _ => .found entPaidRec
    s3 := fun _ => ⟨[], some "RequestError: send request failed"⟩
    presign := okPresign
    marshal := okMarshal }

/-- Counterexample to C6: a transient failure of the usage
enumeration is NOT surfaced as a 400-class response — the error
return of the paginated listing is discarded by `calculateObjectSize`,
the usage counts as 0, and the request succeeds with a 200 and a
signed URL. -/
theorem c6_enum_error_swallowed_cex :
    (c6env.s3 "acme/").err = some "RequestError: send request failed" ∧
    (PartRev.HandleRequest c6env (.ok baseUser)).1.statusCode = 200 :=
  ⟨rfl, rfl⟩

/-- C6 amended: errors from the identity store lookup and from URL
signing are returned up unmodified and abort the request (400 with
the backend's message), but errors from the usage enumeration are
discarded — `calculateObjectSize` depends only on the delivered
pages, never on the listing's error value. -/
theorem c6_error_propagation_amended :
    (∀ (env : PartRev.Env) (user : User) (m : String),
      env.sessionErr = none → env.store user.sub = .backendErr m →
      (PartRev.HandleRequest env (.ok user)).1 = ⟨m, 400, []⟩) ∧
    (∀ (ps : String → String × Option String) (user : User) (m : String),
      (ps (user.companyID ++ "/" ++ user.fileRequest)).2 = some m →
      PartRev.signURLForUser ps user = ("", some m)) ∧
    (∀ (s3a s3b : String → ListResult) (user : User),
      (s3a (user.companyID ++ "/")).pages =
        (s3b (user.companyID ++ "/")).pages →
      PartRev.calculateObjectSize s3a user =
        PartRev.calculateObjectSize s3b user) := by
  refine ⟨?_, ?_, ?_⟩
  · intro env user m hsess herr
    have hv : PartRev.validateUser env.store env.s3 user =
        ((false, some m), user) := by
      unfold PartRev.validateUser
      rw [herr]
    unfold PartRev.HandleRequest
    rw [hsess]
    dsimp only []
    simp [hv]
  · intro ps user m herr
    unfold PartRev.signURLForUser
    dsimp only []
    rw [herr]
  · intro s3a s3b user hpages
    rw [calculateObjectSize_flatten, calculateObjectSize_flatten, hpages]

/-- An identity store whose backend call fails. -/
def c6errStoreEnv : PartRev.Env :=
  { sessionErr := none
    store := fun _ => .backendErr "dynamo unavailable"
    s3 := emptyS3
    presign := okPresign
    marshal := okMarshal }

/-- A presign backend that fails. -/
def failPresign : String → String × Option String :=
  fun _ => ("", some "SignatureDoesNotMatch")

/-- Witness for the amended C6 at concrete inputs: the store error
message reaches the caller verbatim with status 400; a signing error
is returned unmodified; and the usage total is unchanged when only
the listing's error value differs. -/
theorem c6_error_propagation_witness :
    (PartRev.HandleRequest c6errStoreEnv (.ok baseUser)).1 =
      ⟨"dynamo unavailable", 400, []⟩ ∧
    PartRev.signURLForUser failPresign baseUser =
      ("", some "SignatureDoesNotMatch") ∧
    PartRev.calculateObjectSize (fun _ => ⟨[[7]], some "net down"⟩) baseUser =
      PartRev.calculateObjectSize (fun _ => ⟨[[7]], none⟩) baseUser :=
  ⟨c6_error_propagation_amended.1 c6errStoreEnv baseUser _ rfl rfl,
   c6_error_propagation_amended.2.1 failPresign baseUser _ rfl,
   c6_error_propagation_amended.2.2 _ _ baseUser rfl⟩

/-- An environment where `session.NewSession` fails. -/
def c7env : PartRev.Env :=
  { sessionErr := some "MissingRegion: could not find region configuration"
    store := fun _ => .found freePaidRec
    s3 := emptyS3
    presign := okPresign
    marshal := okMarshal }

/-- Counterexample to C7: when session construction fails, the
response's `StatusCode` field is never set, so the Go zero value 0 is
returned — a status code other than 200 and 400. -/
theorem c7_session_status_zero_cex :
    c7env.sessionErr.isSome = true ∧
    (PartRev.HandleRequest c7env (.ok baseUser)).1.statusCode = 0 ∧
    ¬ ((PartRev.HandleRequest c7env (.ok baseUser)).1.statusCode = 200 ∨
       (PartRev.HandleRequest c7env (.ok baseUser)).1.statusCode = 400) :=
  ⟨rfl, rfl, by decide⟩

/-- C7 amended: when session construction succeeds, every outcome —
malformed payload, authorization failure, signing failure,
marshalling failure, success — carries status exactly 200 or exactly
400; when session construction fails, the response is the bare error
body with status 0 (the struct's zero value). -/
theorem c7_status_codes_amended (env : PartRev.Env)
    (body : Except String User) :
    (env.sessionErr = none →
      (PartRev.HandleRequest env body).1.statusCode = 200 ∨
      (PartRev.HandleRequest env body).1.statusCode = 400) ∧
    (∀ m, env.sessionErr = some m →
      (PartRev.HandleRequest env body).1 = ⟨m, 0, []⟩) := by
  constructor
  · intro hsess
    unfold PartRev.HandleRequest
    rw [hsess]
    cases body with
    | error m => simp
    | ok user =>
      dsimp only []
      repeat' split
      all_goals simp
  · intro m hm
    unfold PartRev.HandleRequest
    rw [hm]

/-- An environment where everything succeeds but the subject is
unknown, exercising a 400 leaf of the session-ok regime. -/
def c7okEnv : PartRev.Env :=
  { sessionErr := none
    store := fun _ => .notFound
    s3 := emptyS3
    presign := okPresign
    marshal := okMarshal }

/-- Witness for the amended C7 at concrete inputs. -/
theorem c7_status_codes_witness :
    ((PartRev.HandleRequest c7okEnv (.ok baseUser)).1.statusCode = 200 ∨
     (PartRev.HandleRequest c7okEnv (.ok baseUser)).1.statusCode = 400) ∧
    (PartRev.HandleRequest c7env (.ok baseUser)).1 =
      ⟨"MissingRegion: could not find region configuration", 0, []⟩ :=
  ⟨(c7_status_codes_amended c7okEnv (.ok baseUser)).1 rfl,
   (c7_status_codes_amended c7env (.ok baseUser)).2 _ rfl⟩

/-- An environment with a paid Free-tier account, no stored objects
and working presign/marshal backends. -/
def c8env : PartRev.Env :=
  { sessionErr := none
    store := fun _ => .found freePaidRec
    s3 := emptyS3
    presign := okPresign
    marshal := okMarshal }

/-- Counterexample to C8: a request with `file_size = -1` (below 0)
is NOT rejected — it flows through the quota arithmetic and the
handler answers 200 with a signed URL. -/
theorem c8_negative_size_signed_cex :
    ({ baseUser with fileSize := -1 } : User).fileSize < 0 ∧
    (PartRev.HandleRequest c8env (.ok { baseUser with fileSize := -1 })).1 =
      ⟨"https://signed.example/upload", 200, PartRev.corsHeaders⟩ :=
  ⟨by decide, rfl⟩

/-- C8 amended: `requestedFileSizeBytes` is never validated — at
tier 0 with an empty namespace, every `fileSize` up to the Free
ceiling is granted, including every negative `int64` value, which
enters the sum `totalSize + int64(FileSize)` unchecked. -/
theorem c8_no_size_validation_amended (s3 : String → ListResult)
    (user : User) (htier : user.serviceTier = 0)
    (hempty : (s3 (user.companyID ++ "/")).pages = [])
    (hupper : user.fileSize ≤ 10000000)
    (hlower : -(2 ^ 63) ≤ user.fileSize) :
    PartRev.verifyUserGrants s3 user = (true, none) := by
  have hc : PartRev.calculateObjectSize s3 user = 0 := by
    rw [calculateObjectSize_flatten, hempty]; rfl
  have hadd : i64add 0 user.fileSize = user.fileSize := by
    have hb : (10000000 : Int) < 2 ^ 63 := by norm_num
    have h := i64add_eq_add 0 user.fileSize (by simpa using hlower)
      (by linarith)
    simpa using h
  have h1 : ¬ ((10000000 : Int) < user.fileSize) := not_lt.mpr hupper
  unfold PartRev.verifyUserGrants
  rw [htier, hc]
  simp [hadd, h1]

/-- Witness for the amended C8: `file_size = -1` is granted at
tier 0. -/
theorem c8_no_size_validation_witness :
    PartRev.verifyUserGrants emptyS3 { baseUser with fileSize := -1 } =
      (true, none) :=
  c8_no_size_validation_amended emptyS3 { baseUser with fileSize := -1 }
    rfl rfl (by norm_num) (by norm_num)

/-- C10: both revisions' `HandleRequest` always return `nil` as the
handler error: every outcome is encoded in the response value alone. -/
theorem c10_handler_error_always_nil :
    (∀ (env : PartRev.Env) (body : Except String User),
      (PartRev.HandleRequest env body).2 = none) ∧
    (∀ (env : MainRev.Env) (body : Except String User),
      (MainRev.HandleRequest env body).2 = none) := by
  constructor
  · intro env body
    unfold PartRev.HandleRequest
    repeat' (first | split | dsimp only [])
  · intro env body
    unfold MainRev.HandleRequest
    repeat' (first | split | dsimp only [])
